import Mathlib

/-!
Verification development for the haex-sdk client library.

The SDK (src/src/api/database.ts) is a thin pass-through layer: each public
operation of `DatabaseAPI` builds a method name and a payload, issues exactly
one call to an injected client's generic `request(method, payload)` primitive
(the Request Gateway), and returns the gateway's typed result.

The embedding below models the gateway as a function from method and payload
to an `Except` result, and each SDK operation as a pure function that returns
both its result and the list of gateway calls it issued, so that statements
about call counts and payload contents can be made directly.

`src/src/api/database.ts` contains two revisions of the `DatabaseAPI` class;
they agree on every method except `registerMigrationsAsync`, where the later
revision (lines 198-209) returns the gateway's `MigrationResult` while the
earlier one discards it. The embedding follows the later revision, which is
the one the result-shape claims cite.
-/

/-- A JSON-like runtime value, standing in for TypeScript `unknown` as it is
used for SQL bound parameters and row fields. -/
inductive Value where
  | int (n : Int)
  | str (s : String)
  | bool (b : Bool)
  | null
deriving DecidableEq, Repr

/-- A row returned by the host: field name / value pairs. -/
abbrev Row : Type := List (String × Value)

/-- Modelled from the spec: the shape of `DatabaseQueryResult` (declared in
the repository's `types.ts`, which is not among the available sources). The
fields are exactly the ones the code under src/ reads: `rows`
(`result.rows`, a list whose elements may themselves be null),
`rowsAffected`, and the optional `lastInsertId`. -/
structure DatabaseQueryResult where
  rows : List (Option Row)
  rowsAffected : Nat
  lastInsertId : Option Int
deriving DecidableEq

/-- A named unit of schema change (spec section 3): `name` identifies the
migration for ordering and idempotence, `sql` is opaque to the SDK. -/
structure Migration where
  name : String
  sql : String
deriving DecidableEq, Repr

/-- Modelled from the spec: the shape of `MigrationResult` (declared in the
repository's `types.ts`, which is not among the available sources). Spec
section 3: a count of migrations newly applied in this call, a count of
migrations already applied previously, and the applied migration names. -/
structure MigrationResult where
  applied : Nat
  alreadyApplied : Nat
  appliedMigrations : List String
deriving DecidableEq, Repr

/-- The gateway method identifiers used by `DatabaseAPI`
(`HAEXTENSION_METHODS.database.*`), treated as an opaque enumeration. -/
inductive Method where
  | query
  | execute
  | transaction
  | registerMigrations
deriving DecidableEq, Repr

/-- The payload object passed to `client.request` for each method. -/
inductive Payload where
  | queryExec (query : String) (params : List Value)
  | transaction (statements : List String)
  | registerMigrations (extensionVersion : String) (migrations : List Migration)
deriving DecidableEq, Repr

/-- The typed result the gateway returns for each method, mirroring the type
argument the source passes to `client.request<T>`. -/
def ResType : Method → Type
  | .query => DatabaseQueryResult
  | .execute => DatabaseQueryResult
  | .transaction => Unit
  | .registerMigrations => MigrationResult

/-- The Request Gateway (`HaexHubClient` / `HaexVaultClient`): a single
generic `request(method, payload)` primitive returning a typed result or an
opaque error. -/
structure Client where
  request : (m : Method) → Payload → Except String (ResType m)

/-- One gateway call as observed on the wire: the method and payload handed
to `client.request`. -/
structure Call where
  method : Method
  payload : Payload
deriving DecidableEq, Repr

namespace DatabaseAPI

/-- `DatabaseAPI.query`: one `database.query` gateway call with the query
string and `params || []`; returns `result.rows`. The second component is
the list of gateway calls issued. -/
def query (c : Client) (q : String) (params : Option (List Value)) :
    Except String (List (Option Row)) × List Call :=
  let p : Payload := .queryExec q (params.getD [])
  match c.request .query p with
  | .error e => (.error e, [⟨.query, p⟩])
  | .ok r => (.ok r.rows, [⟨.query, p⟩])

/-- `DatabaseAPI.queryOne`: delegates to `query` and returns
`rows.length > 0 ? rows[0] ?? null : null`. -/
def queryOne (c : Client) (q : String) (params : Option (List Value)) :
    Except String (Option Row) × List Call :=
  match query c q params with
  | (.error e, t) => (.error e, t)
  | (.ok rows, t) => (.ok (if rows.length > 0 then rows.headD none else none), t)

/-- `DatabaseAPI.execute`: one `database.execute` gateway call with the query
string and `params || []`; returns the full `DatabaseQueryResult`. -/
def execute (c : Client) (q : String) (params : Option (List Value)) :
    Except String DatabaseQueryResult × List Call :=
  let p : Payload := .queryExec q (params.getD [])
  match c.request .execute p with
  | .error e => (.error e, [⟨.execute, p⟩])
  | .ok r => (.ok r, [⟨.execute, p⟩])

/-- `DatabaseAPI.transaction`: one `database.transaction` gateway call
carrying the statement list; the result is discarded. -/
def transaction (c : Client) (statements : List String) :
    Except String Unit × List Call :=
  let p : Payload := .transaction statements
  match c.request .transaction p with
  | .error e => (.error e, [⟨.transaction, p⟩])
  | .ok _ => (.ok (), [⟨.transaction, p⟩])

/-- The SQL text built by `DatabaseAPI.createTable`. -/
def createTableQuery (tableName columns : String) : String :=
  "CREATE TABLE IF NOT EXISTS " ++ tableName ++ " (" ++ columns ++ ")"

/-- `DatabaseAPI.createTable`: builds the CREATE TABLE text and calls
`execute` with no parameters, discarding the result. -/
def createTable (c : Client) (tableName columns : String) :
    Except String Unit × List Call :=
  match execute c (createTableQuery tableName columns) none with
  | (.error e, t) => (.error e, t)
  | (.ok _, t) => (.ok (), t)

/-- The SQL text built by `DatabaseAPI.dropTable`. -/
def dropTableQuery (tableName : String) : String :=
  "DROP TABLE IF EXISTS " ++ tableName

/-- `DatabaseAPI.dropTable`: builds the DROP TABLE text and calls `execute`
with no parameters, discarding the result. -/
def dropTable (c : Client) (tableName : String) :
    Except String Unit × List Call :=
  match execute c (dropTableQuery tableName) none with
  | (.error e, t) => (.error e, t)
  | (.ok _, t) => (.ok (), t)

/-- `DatabaseAPI.registerMigrationsAsync` (lines 198-209): one
`database.registerMigrations` gateway call carrying the extension version and
the migrations array exactly as submitted; returns the gateway's
`MigrationResult`. -/
def registerMigrationsAsync (c : Client) (extensionVersion : String)
    (migrations : List Migration) :
    Except String MigrationResult × List Call :=
  let p : Payload := .registerMigrations extensionVersion migrations
  (c.request .registerMigrations p, [⟨.registerMigrations, p⟩])

/-- The SQL text built by `DatabaseAPI.insert`: the keys of `data` in
insertion order become the column list, one `?` placeholder per key. -/
def insertQuery (tableName : String) (data : List (String × Value)) : String :=
  let keys := data.map Prod.fst
  let placeholders := String.intercalate ", " (keys.map fun _ => "?")
  "INSERT INTO " ++ tableName ++ " (" ++ String.intercalate ", " keys ++
    ") VALUES (" ++ placeholders ++ ")"

/-- `DatabaseAPI.insert`: a record is modelled as its key/value pairs in
insertion order (`Object.keys` / `Object.values` agree on that order). One
`execute` call with the built text and the values as bound parameters;
returns `result.lastInsertId ?? -1`. -/
def insert (c : Client) (tableName : String) (data : List (String × Value)) :
    Except String Int × List Call :=
  let values := data.map Prod.snd
  match execute c (insertQuery tableName data) (some values) with
  | (.error e, t) => (.error e, t)
  | (.ok r, t) => (.ok (r.lastInsertId.getD (-1)), t)

/-- The SQL text built by `DatabaseAPI.update`: the keys of `data` become the
SET clause, values only as `?` placeholders, and the caller-supplied WHERE
string is appended verbatim. -/
def updateQuery (tableName : String) (data : List (String × Value))
    (whereClause : String) : String :=
  let keys := data.map Prod.fst
  let setClause := String.intercalate ", " (keys.map fun k => k ++ " = ?")
  "UPDATE " ++ tableName ++ " SET " ++ setClause ++ " WHERE " ++ whereClause

/-- `DatabaseAPI.update`: one `execute` call with the built text and
`[...values, ...(whereParams || [])]`; returns `result.rowsAffected`. -/
def update (c : Client) (tableName : String) (data : List (String × Value))
    (whereClause : String) (whereParams : Option (List Value)) :
    Except String Nat × List Call :=
  let values := data.map Prod.snd
  match execute c (updateQuery tableName data whereClause)
      (some (values ++ whereParams.getD [])) with
  | (.error e, t) => (.error e, t)
  | (.ok r, t) => (.ok r.rowsAffected, t)

/-- The SQL text built by `DatabaseAPI.delete`. -/
def deleteQuery (tableName : String) (whereClause : String) : String :=
  "DELETE FROM " ++ tableName ++ " WHERE " ++ whereClause

/-- `DatabaseAPI.delete`: one `execute` call with the built text and the
optional `whereParams` passed through; returns `result.rowsAffected`. -/
def delete (c : Client) (tableName : String) (whereClause : String)
    (whereParams : Option (List Value)) :
    Except String Nat × List Call :=
  match execute c (deleteQuery tableName whereClause) whereParams with
  | (.error e, t) => (.error e, t)
  | (.ok r, t) => (.ok r.rowsAffected, t)

/-- The SQL text built by `DatabaseAPI.count`. The source guards on the
truthiness of the `where` argument, so an empty WHERE string behaves like an
absent one. -/
def countQuery (tableName : String) (whereClause : Option String) : String :=
  match whereClause with
  | some w =>
    if w = "" then "SELECT COUNT(*) as count FROM " ++ tableName
    else "SELECT COUNT(*) as count FROM " ++ tableName ++ " WHERE " ++ w
  | none => "SELECT COUNT(*) as count FROM " ++ tableName

/-- `DatabaseAPI.count`: one `queryOne` call with the built text; returns
`result?.count ?? 0`, reading the `count` field of the first row. -/
def count (c : Client) (tableName : String) (whereClause : Option String)
    (whereParams : Option (List Value)) :
    Except String Value × List Call :=
  match queryOne c (countQuery tableName whereClause) whereParams with
  | (.error e, t) => (.error e, t)
  | (.ok row, t) =>
    (.ok ((row.bind fun r => List.lookup "count" r).getD (.int 0)), t)

end DatabaseAPI

/-! ## Host-side migration engine model -/

/-- Modelled from the spec: the host's persisted migration state (the set of
migration names carrying an `applied_at` timestamp). The host-side engine is
outside this repository; spec section 4.1 and the source doc comment on
`registerMigrationsAsync` describe it. -/
structure HostState where
  appliedNames : List String
deriving DecidableEq, Repr

/-- Modelled from the spec: the migrations of a submitted set that are still
pending (name not yet marked applied) for a given host state. -/
def hostPending (st : HostState) (migrations : List Migration) : List Migration :=
  migrations.filter fun m => !(st.appliedNames.contains m.name)

/-- Modelled from the spec: one registration call on the host. Pending
migrations are selected and marked applied (the host executes them in
ascending order by name before marking; that order is not observable in the
summary this model returns, so the marking is recorded directly); migrations
whose name is already marked applied are counted as no-ops. The result
reports the newly applied count, the already applied count, and the names of
the submitted migrations that ended up applied. -/
def hostApply (st : HostState) (migrations : List Migration) :
    HostState × MigrationResult :=
  let pending := hostPending st migrations
  let already := migrations.filter fun m => st.appliedNames.contains m.name
  (⟨st.appliedNames ++ pending.map Migration.name⟩,
   ⟨pending.length, already.length, migrations.map Migration.name⟩)

/-- Modelled from the spec: a Request Gateway backed by a host in state `st`,
answering only `registerMigrations` calls. -/
def hostClientAt (st : HostState) : Client :=
  ⟨fun m p =>
    match m with
    | .registerMigrations =>
      match p with
      | .registerMigrations _ migs => .ok (hostApply st migs).2
      | _ => .error "bad payload"
    | .query => .error "unsupported"
    | .execute => .error "unsupported"
    | .transaction => .error "unsupported"⟩

/-! ## Manifest reading (readManifest) -/

/-- The per-capability permission lists of a manifest. -/
structure Permissions where
  database : List String
  filesystem : List String
  http : List String
  shell : List String
deriving DecidableEq, Repr

/-- The parsed manifest file before merging: every field optional, as in the
`Partial<ExtensionManifest>` the source obtains from `JSON.parse`. -/
structure PartialManifest where
  name : Option String := none
  version : Option String := none
  author : Option String := none
  entry : Option String := none
  icon : Option String := none
  publicKey : Option String := none
  signature : Option String := none
  permissions : Option Permissions := none
  homepage : Option String := none
  description : Option String := none
  singleInstance : Option Bool := none
  displayMode : Option String := none
deriving DecidableEq, Repr

/-- The fields `readManifest` reads from the companion `package.json`. -/
structure PackageJson where
  name : Option String := none
  version : Option String := none
  author : Option String := none
  homepage : Option String := none
deriving DecidableEq, Repr

/-- The fully resolved `ExtensionManifest` the source constructs. -/
structure ExtensionManifest where
  name : String
  version : String
  author : Option String
  entry : Option String
  icon : Option String
  publicKey : String
  signature : String
  permissions : Permissions
  homepage : Option String
  description : Option String
  singleInstance : Option Bool
  displayMode : Option String
deriving DecidableEq, Repr

/-- The observable inputs of one `readManifest` run: `manifest` is `some` when
the manifest file was read and parsed successfully (`none` covers both a
missing file and a JSON parse failure, which the source handles in one catch
block); `packageJson` is `none` when `package.json` could not be read. -/
structure ManifestInput where
  manifest : Option PartialManifest
  packageJson : Option PackageJson
deriving DecidableEq, Repr

/-- `parsed.name ?? packageJson.name`. -/
def mergedName (parsed : PartialManifest) (pkg : PackageJson) : Option String :=
  parsed.name <|> pkg.name

/-- `parsed.version ?? packageJson.version`. -/
def mergedVersion (parsed : PartialManifest) (pkg : PackageJson) : Option String :=
  parsed.version <|> pkg.version

/-- `parsed.author ?? packageJson.author ?? null`. -/
def mergedAuthor (parsed : PartialManifest) (pkg : PackageJson) : Option String :=
  parsed.author <|> pkg.author

/-- `parsed.homepage ?? packageJson.homepage ?? null`. -/
def mergedHomepage (parsed : PartialManifest) (pkg : PackageJson) : Option String :=
  parsed.homepage <|> pkg.homepage

/-- The `package.json` value in scope after the inner try/catch: the parsed
file, or the empty object when reading failed. -/
def effPkg (input : ManifestInput) : PackageJson :=
  input.packageJson.getD {}

/-- JavaScript falsiness of a possibly absent string, as tested by the
source's `if (!name)` and `if (!version)` guards: absent or empty. -/
def isBlank : Option String → Bool
  | none => true
  | some s => s = ""

/-- `readManifest` (src/unnamed/part_000): merges the parsed manifest with
`package.json` fallbacks, returns `null` with a diagnostic warning when the
manifest is unreadable or when no name or no version is found, and otherwise
the resolved manifest. The second component collects the warnings emitted.
The embedding is a total function: every input yields a value, mirroring the
source's catch-all that turns every failure into a warning plus `null`. -/
def readManifest (input : ManifestInput) :
    Option ExtensionManifest × List String :=
  match input.manifest with
  | none =>
    (none, ["[@haexhub/sdk] Warning: manifest.json not found, extension info will not be available"])
  | some parsed =>
    let pkgWarns : List String :=
      match input.packageJson with
      | some _ => []
      | none => ["[@haexhub/sdk] Warning: Could not read package.json"]
    let pkg := effPkg input
    let name := mergedName parsed pkg
    let version := mergedVersion parsed pkg
    if isBlank name then
      (none, pkgWarns ++ ["[@haexhub/sdk] Warning: No name found in manifest or package.json"])
    else if isBlank version then
      (none, pkgWarns ++ ["[@haexhub/sdk] Warning: No version found in manifest or package.json"])
    else
      (some
        { name := name.getD ""
          version := version.getD ""
          author := mergedAuthor parsed pkg
          entry := parsed.entry
          icon := parsed.icon
          publicKey := parsed.publicKey.getD ""
          signature := parsed.signature.getD ""
          permissions := parsed.permissions.getD ⟨[], [], [], []⟩
          homepage := mergedHomepage parsed pkg
          description := parsed.description
          singleInstance := parsed.singleInstance
          displayMode := parsed.displayMode },
       pkgWarns)

/-! ## Concrete gateways used to exercise the theorems -/

/-- A gateway whose channel is down: every call fails. -/
def errClient : Client :=
  ⟨fun _ _ => .error "gateway down"⟩

/-- A gateway answering `execute` with `lastInsertId = 42`. -/
def okExecClient : Client :=
  ⟨fun m _ =>
    match m with
    | .execute => .ok ⟨[], 1, some 42⟩
    | .query => .error "unsupported"
    | .transaction => .error "unsupported"
    | .registerMigrations => .error "unsupported"⟩

/-- A gateway answering `execute` with no `lastInsertId`. -/
def noIdClient : Client :=
  ⟨fun m _ =>
    match m with
    | .execute => .ok ⟨[], 0, none⟩
    | .query => .error "unsupported"
    | .transaction => .error "unsupported"
    | .registerMigrations => .error "unsupported"⟩

/-- A gateway answering `query` with two rows, the second a null element. -/
def rowsClient : Client :=
  ⟨fun m _ =>
    match m with
    | .query => .ok ⟨[some [("x", Value.int 1)], none], 0, none⟩
    | .execute => .error "unsupported"
    | .transaction => .error "unsupported"
    | .registerMigrations => .error "unsupported"⟩

/-! ## Claim theorems -/

namespace DatabaseAPI

/-- C1: for every extension version, migrations sequence and gateway
response, `registerMigrationsAsync` returns exactly the `MigrationResult`
produced by the Request Gateway — the value carrying the newly-applied count,
the already-applied count, and the applied migration names — so the caller
can distinguish applied-now from already-applied. -/
theorem registerMigrations_returns_gateway_result (c : Client) (ev : String)
    (migs : List Migration) (r : MigrationResult)
    (h : c.request .registerMigrations (.registerMigrations ev migs) = .ok r) :
    (registerMigrationsAsync c ev migs).1 =
      .ok ⟨r.applied, r.alreadyApplied, r.appliedMigrations⟩ := by
  simp [registerMigrationsAsync, h]

/-- Witness for C1 at a host with empty state and one migration. -/
theorem registerMigrations_returns_gateway_result_witness :
    (hostClientAt ⟨[]⟩).request .registerMigrations
        (.registerMigrations "1.0.0" [⟨"0001_init", "CREATE TABLE t (x)"⟩]) =
      .ok ⟨1, 0, ["0001_init"]⟩ ∧
    (registerMigrationsAsync (hostClientAt ⟨[]⟩) "1.0.0"
        [⟨"0001_init", "CREATE TABLE t (x)"⟩]).1 = .ok ⟨1, 0, ["0001_init"]⟩ :=
  ⟨rfl,
   registerMigrations_returns_gateway_result (hostClientAt ⟨[]⟩) "1.0.0"
     [⟨"0001_init", "CREATE TABLE t (x)"⟩] ⟨1, 0, ["0001_init"]⟩ rfl⟩

/-- C2: one call to `registerMigrationsAsync` issues exactly one Request
Gateway call, and its payload carries the extension version and the
migrations sequence unchanged — same elements, same submission order, names
and sql untouched; the SDK operation is a pure function of its arguments, so
nothing is sorted, filtered, deduplicated or retained across calls. -/
theorem registerMigrations_single_unchanged_call (c : Client) (ev : String)
    (migs : List Migration) :
    (registerMigrationsAsync c ev migs).2 =
      [⟨.registerMigrations, .registerMigrations ev migs⟩] := rfl

/-- C5: `insert("t", {a:1,b:2})` issues a single `execute` gateway call with
SQL text `INSERT INTO t (a, b) VALUES (?, ?)` and bound parameters `[1, 2]`,
and returns the `lastInsertId` the host reports in the gateway result. -/
theorem insert_t_a1_b2 (c : Client) (r : DatabaseQueryResult) (i : Int)
    (h : c.request .execute
        (.queryExec "INSERT INTO t (a, b) VALUES (?, ?)" [.int 1, .int 2]) =
      .ok r)
    (hid : r.lastInsertId = some i) :
    insert c "t" [("a", .int 1), ("b", .int 2)] =
      (.ok i,
       [⟨.execute,
         .queryExec "INSERT INTO t (a, b) VALUES (?, ?)" [.int 1, .int 2]⟩]) := by
  have hq : insertQuery "t" [("a", .int 1), ("b", .int 2)] =
      "INSERT INTO t (a, b) VALUES (?, ?)" := by decide
  simp [insert, execute, hq, h, hid]

/-- Witness for C5 on the gateway reporting `lastInsertId = 42`. -/
theorem insert_t_a1_b2_witness :
    okExecClient.request .execute
        (.queryExec "INSERT INTO t (a, b) VALUES (?, ?)" [.int 1, .int 2]) =
      .ok ⟨[], 1, some 42⟩ ∧
    (⟨[], 1, some 42⟩ : DatabaseQueryResult).lastInsertId = some 42 ∧
    insert okExecClient "t" [("a", .int 1), ("b", .int 2)] =
      (.ok 42,
       [⟨.execute,
         .queryExec "INSERT INTO t (a, b) VALUES (?, ?)" [.int 1, .int 2]⟩]) :=
  ⟨rfl, rfl, insert_t_a1_b2 okExecClient ⟨[], 1, some 42⟩ 42 rfl rfl⟩

/-- C6: two-run noninterference of the SQL builders — for any two data
records with the same keys in the same order, the SQL text built by `insert`
and by `update` (for an equal WHERE string) is identical regardless of the
records' values; values reach only the bound parameter list. -/
theorem sql_text_independent_of_values (tableName : String)
    (d1 d2 : List (String × Value)) (h : d1.map Prod.fst = d2.map Prod.fst) :
    insertQuery tableName d1 = insertQuery tableName d2 ∧
    ∀ w, updateQuery tableName d1 w = updateQuery tableName d2 w := by
  constructor
  · unfold insertQuery
    rw [h]
  · intro w
    unfold updateQuery
    rw [h]

/-- Witness for C6: same key, an integer value versus a string value. -/
theorem sql_text_independent_of_values_witness :
    ([("a", Value.int 1)].map Prod.fst = [("a", Value.str "x")].map Prod.fst) ∧
    insertQuery "t" [("a", Value.int 1)] = insertQuery "t" [("a", Value.str "x")] ∧
    updateQuery "t" [("a", Value.int 1)] "id = ?" =
      updateQuery "t" [("a", Value.str "x")] "id = ?" :=
  ⟨rfl,
   (sql_text_independent_of_values "t" [("a", Value.int 1)]
     [("a", Value.str "x")] rfl).1,
   (sql_text_independent_of_values "t" [("a", Value.int 1)]
     [("a", Value.str "x")] rfl).2 "id = ?"⟩

/-- C9: whenever the gateway's `execute` result carries no `lastInsertId`,
`insert` succeeds with `-1` instead of failing or returning a host value. -/
theorem insert_defaults_to_minus_one (c : Client) (tableName : String)
    (data : List (String × Value)) (r : DatabaseQueryResult)
    (h : c.request .execute
        (.queryExec (insertQuery tableName data) (data.map Prod.snd)) = .ok r)
    (hid : r.lastInsertId = none) :
    (insert c tableName data).1 = .ok (-1) := by
  simp [insert, execute, h, hid]

/-- Witness for C9 on the gateway reporting no `lastInsertId`. -/
theorem insert_defaults_to_minus_one_witness :
    noIdClient.request .execute
        (.queryExec (insertQuery "t" [("a", Value.int 5)]) [Value.int 5]) =
      .ok ⟨[], 0, none⟩ ∧
    (⟨[], 0, none⟩ : DatabaseQueryResult).lastInsertId = none ∧
    (insert noIdClient "t" [("a", Value.int 5)]).1 = .ok (-1) :=
  ⟨rfl, rfl,
   insert_defaults_to_minus_one noIdClient "t" [("a", Value.int 5)]
     ⟨[], 0, none⟩ rfl rfl⟩

/-- C10: `queryOne` returns exactly the first element of the row list
returned by `query`: the head element when the list is non-empty (which is
null when that element is itself null), and null when the list is empty —
`rows.headD none` is precisely that value, so no row other than the first is
ever returned. -/
theorem queryOne_returns_first_row (c : Client) (q : String)
    (params : Option (List Value)) (rows : List (Option Row)) (t : List Call)
    (h : query c q params = (.ok rows, t)) :
    (queryOne c q params).1 = .ok (rows.headD none) := by
  simp only [queryOne, h]
  cases rows <;> simp

/-- Witness for C10 on a gateway returning two rows. -/
theorem queryOne_returns_first_row_witness :
    query rowsClient "SELECT * FROM t" none =
      (.ok [some [("x", Value.int 1)], none],
       [⟨.query, .queryExec "SELECT * FROM t" []⟩]) ∧
    (queryOne rowsClient "SELECT * FROM t" none).1 =
      .ok (some [("x", Value.int 1)]) :=
  ⟨rfl,
   queryOne_returns_first_row rowsClient "SELECT * FROM t" none
     [some [("x", Value.int 1)], none]
     [⟨.query, .queryExec "SELECT * FROM t" []⟩] rfl⟩

end DatabaseAPI

namespace DatabaseAPI

/-- C4: for every `DatabaseAPI` operation and every input, if the Request
Gateway call the operation issues fails with some error `e`, the operation
fails with that same error, and the trace shows exactly that one gateway
call — no retry, no second call, no transformation of the failure. -/
theorem gateway_error_passthrough (c : Client) (e : String) (q : String)
    (params : Option (List Value)) (stmts : List String) (tbl cols w : String)
    (data : List (String × Value)) (wp : Option (List Value))
    (wOpt : Option String) (ev : String) (migs : List Migration) :
    (c.request .query (.queryExec q (params.getD [])) = .error e →
      query c q params =
        (.error e, [⟨.query, .queryExec q (params.getD [])⟩])) ∧
    (c.request .query (.queryExec q (params.getD [])) = .error e →
      queryOne c q params =
        (.error e, [⟨.query, .queryExec q (params.getD [])⟩])) ∧
    (c.request .execute (.queryExec q (params.getD [])) = .error e →
      execute c q params =
        (.error e, [⟨.execute, .queryExec q (params.getD [])⟩])) ∧
    (c.request .transaction (.transaction stmts) = .error e →
      transaction c stmts =
        (.error e, [⟨.transaction, .transaction stmts⟩])) ∧
    (c.request .execute (.queryExec (createTableQuery tbl cols) []) = .error e →
      createTable c tbl cols =
        (.error e, [⟨.execute, .queryExec (createTableQuery tbl cols) []⟩])) ∧
    (c.request .execute (.queryExec (dropTableQuery tbl) []) = .error e →
      dropTable c tbl =
        (.error e, [⟨.execute, .queryExec (dropTableQuery tbl) []⟩])) ∧
    (c.request .registerMigrations (.registerMigrations ev migs) = .error e →
      registerMigrationsAsync c ev migs =
        (.error e, [⟨.registerMigrations, .registerMigrations ev migs⟩])) ∧
    (c.request .execute
        (.queryExec (insertQuery tbl data) (data.map Prod.snd)) = .error e →
      insert c tbl data =
        (.error e,
         [⟨.execute, .queryExec (insertQuery tbl data) (data.map Prod.snd)⟩])) ∧
    (c.request .execute
        (.queryExec (updateQuery tbl data w)
          (data.map Prod.snd ++ wp.getD [])) = .error e →
      update c tbl data w wp =
        (.error e,
         [⟨.execute,
           .queryExec (updateQuery tbl data w)
             (data.map Prod.snd ++ wp.getD [])⟩])) ∧
    (c.request .execute (.queryExec (deleteQuery tbl w) (wp.getD [])) = .error e →
      delete c tbl w wp =
        (.error e, [⟨.execute, .queryExec (deleteQuery tbl w) (wp.getD [])⟩])) ∧
    (c.request .query (.queryExec (countQuery tbl wOpt) (wp.getD [])) = .error e →
      count c tbl wOpt wp =
        (.error e, [⟨.query, .queryExec (countQuery tbl wOpt) (wp.getD [])⟩])) := by
  refine ⟨fun h => ?_, fun h => ?_, fun h => ?_, fun h => ?_, fun h => ?_,
    fun h => ?_, fun h => ?_, fun h => ?_, fun h => ?_, fun h => ?_, fun h => ?_⟩
  · simp [query, h]
  · simp [queryOne, query, h]
  · simp [execute, h]
  · simp [transaction, h]
  · simp [createTable, execute, h]
  · simp [dropTable, execute, h]
  · simp [registerMigrationsAsync, h]
  · simp [insert, execute, h]
  · simp [update, execute, h]
  · simp [delete, execute, h]
  · simp [count, queryOne, query, h]

/-- Witness for C4 on the all-failing gateway `errClient`, exercising every
operation at a concrete input. -/
theorem gateway_error_passthrough_witness :
    query errClient "SELECT 1" none =
      (.error "gateway down", [⟨.query, .queryExec "SELECT 1" []⟩]) ∧
    queryOne errClient "SELECT 1" none =
      (.error "gateway down", [⟨.query, .queryExec "SELECT 1" []⟩]) ∧
    execute errClient "SELECT 1" none =
      (.error "gateway down", [⟨.execute, .queryExec "SELECT 1" []⟩]) ∧
    transaction errClient ["A"] =
      (.error "gateway down", [⟨.transaction, .transaction ["A"]⟩]) ∧
    createTable errClient "t" "x" =
      (.error "gateway down",
       [⟨.execute, .queryExec (createTableQuery "t" "x") []⟩]) ∧
    dropTable errClient "t" =
      (.error "gateway down",
       [⟨.execute, .queryExec (dropTableQuery "t") []⟩]) ∧
    registerMigrationsAsync errClient "1.0.0" [⟨"0001_a", "SQL"⟩] =
      (.error "gateway down",
       [⟨.registerMigrations, .registerMigrations "1.0.0" [⟨"0001_a", "SQL"⟩]⟩]) ∧
    insert errClient "t" [("a", Value.int 1)] =
      (.error "gateway down",
       [⟨.execute,
         .queryExec (insertQuery "t" [("a", Value.int 1)]) [Value.int 1]⟩]) ∧
    update errClient "t" [("a", Value.int 1)] "id = ?" none =
      (.error "gateway down",
       [⟨.execute,
         .queryExec (updateQuery "t" [("a", Value.int 1)] "id = ?")
           [Value.int 1]⟩]) ∧
    delete errClient "t" "id = ?" none =
      (.error "gateway down",
       [⟨.execute, .queryExec (deleteQuery "t" "id = ?") []⟩]) ∧
    count errClient "t" none none =
      (.error "gateway down",
       [⟨.query, .queryExec (countQuery "t" none) []⟩]) := by
  have h := gateway_error_passthrough errClient "gateway down" "SELECT 1" none
    ["A"] "t" "x" "id = ?" [("a", Value.int 1)] none none "1.0.0"
    [⟨"0001_a", "SQL"⟩]
  exact ⟨h.1 rfl, h.2.1 rfl, h.2.2.1 rfl, h.2.2.2.1 rfl, h.2.2.2.2.1 rfl,
    h.2.2.2.2.2.1 rfl, h.2.2.2.2.2.2.1 rfl, h.2.2.2.2.2.2.2.1 rfl,
    h.2.2.2.2.2.2.2.2.1 rfl, h.2.2.2.2.2.2.2.2.2.1 rfl,
    h.2.2.2.2.2.2.2.2.2.2 rfl⟩

end DatabaseAPI

/-- After one registration call, every submitted migration's name is marked
applied in the resulting host state. -/
theorem mem_appliedNames_hostApply (st : HostState) (migs : List Migration)
    (m : Migration) (hm : m ∈ migs) :
    m.name ∈ (hostApply st migs).1.appliedNames := by
  simp only [hostApply, hostPending]
  by_cases hc : m.name ∈ st.appliedNames
  · exact List.mem_append_left _ hc
  · refine List.mem_append_right _ ?_
    refine List.mem_map.mpr ⟨m, ?_, rfl⟩
    refine List.mem_filter.mpr ⟨hm, ?_⟩
    simp [List.contains, List.elem_eq_mem, hc]

/-- On a host state where every submitted name is already applied, a
registration call applies nothing and counts the whole set as no-ops. -/
theorem hostApply_all_applied (st : HostState) (migs : List Migration)
    (hall : ∀ m ∈ migs, m.name ∈ st.appliedNames) :
    (hostApply st migs).2 = ⟨0, migs.length, migs.map Migration.name⟩ ∧
    hostPending st migs = [] := by
  have hpend : hostPending st migs = [] := by
    rw [hostPending, List.filter_eq_nil_iff]
    intro m hm
    simp [List.contains, List.elem_eq_mem, hall m hm]
  have halready :
      (migs.filter fun m => st.appliedNames.contains m.name) = migs := by
    rw [List.filter_eq_self]
    intro m hm
    simp [List.contains, List.elem_eq_mem, hall m hm]
  refine ⟨?_, hpend⟩
  simp only [hostApply, hpend, halready]
  simp

/-- C3: for every non-empty migration set, submitting the same set twice via
`registerMigrationsAsync` against the host yields, on the second call, an
already-applied count equal to the full set size and a newly-applied count of
zero; after the first call nothing of the set is pending, so no migration
whose name is marked applied is ever reapplied. -/
theorem resubmit_same_set_idempotent (st0 : HostState) (ev : String)
    (migs : List Migration) (_hne : migs ≠ []) :
    (DatabaseAPI.registerMigrationsAsync
        (hostClientAt (hostApply st0 migs).1) ev migs).1 =
      .ok ⟨0, migs.length, migs.map Migration.name⟩ ∧
    hostPending (hostApply st0 migs).1 migs = [] := by
  have hall : ∀ m ∈ migs, m.name ∈ (hostApply st0 migs).1.appliedNames :=
    fun m hm => mem_appliedNames_hostApply st0 migs m hm
  have h2 := hostApply_all_applied (hostApply st0 migs).1 migs hall
  refine ⟨?_, h2.2⟩
  show Except.ok (hostApply (hostApply st0 migs).1 migs).2 = _
  rw [h2.1]

/-- Witness for C3: two migrations submitted twice from an empty host. -/
theorem resubmit_same_set_idempotent_witness :
    ([⟨"0002_b", "B"⟩, ⟨"0001_a", "A"⟩] : List Migration) ≠ [] ∧
    (DatabaseAPI.registerMigrationsAsync
        (hostClientAt (hostApply ⟨[]⟩ [⟨"0002_b", "B"⟩, ⟨"0001_a", "A"⟩]).1)
        "1.0.0" [⟨"0002_b", "B"⟩, ⟨"0001_a", "A"⟩]).1 =
      .ok ⟨0, 2, ["0002_b", "0001_a"]⟩ ∧
    hostPending (hostApply ⟨[]⟩ [⟨"0002_b", "B"⟩, ⟨"0001_a", "A"⟩]).1
      [⟨"0002_b", "B"⟩, ⟨"0001_a", "A"⟩] = [] := by
  have h := resubmit_same_set_idempotent ⟨[]⟩ "1.0.0"
    [⟨"0002_b", "B"⟩, ⟨"0001_a", "A"⟩] (by decide)
  exact ⟨by decide, h.1, h.2⟩

/-- C7: when the manifest file parses but lacks `version`, the companion
`package.json` supplies version "1.2.3", and a non-blank name is available
from either source, `readManifest` yields a manifest whose version is
"1.2.3"; moreover each merged field (name, version, author, homepage) takes
the manifest's value whenever the manifest supplies one, so manifest fields
take precedence over `package.json` fields. -/
theorem manifest_version_fallback (parsed : PartialManifest) (pkg : PackageJson)
    (hv : parsed.version = none) (hpv : pkg.version = some "1.2.3")
    (hname : isBlank (mergedName parsed pkg) = false) :
    (∃ m, (readManifest ⟨some parsed, some pkg⟩).1 = some m ∧
      m.version = "1.2.3") ∧
    (∀ p2 k2 v, p2.version = some v → mergedVersion p2 k2 = some v) ∧
    (∀ p2 k2 n, p2.name = some n → mergedName p2 k2 = some n) ∧
    (∀ p2 k2 a, p2.author = some a → mergedAuthor p2 k2 = some a) ∧
    (∀ p2 k2 u, p2.homepage = some u → mergedHomepage p2 k2 = some u) := by
  refine ⟨?_, fun p2 k2 v h2 => by simp [mergedVersion, h2],
    fun p2 k2 n h2 => by simp [mergedName, h2],
    fun p2 k2 a h2 => by simp [mergedAuthor, h2],
    fun p2 k2 u h2 => by simp [mergedHomepage, h2]⟩
  have hmv : mergedVersion parsed pkg = some "1.2.3" := by
    simp [mergedVersion, hv, hpv]
  simp only [readManifest, effPkg, Option.getD_some, hmv, hname]
  simp only [show isBlank (some "1.2.3") = false from rfl]
  simp only [Bool.false_eq_true, if_false]
  exact ⟨_, rfl, rfl⟩

/-- Witness for C7: manifest supplying only a name, package.json supplying
version "1.2.3". -/
theorem manifest_version_fallback_witness :
    ({ name := some "ext" } : PartialManifest).version = none ∧
    ({ version := some "1.2.3" } : PackageJson).version = some "1.2.3" ∧
    isBlank (mergedName { name := some "ext" } { version := some "1.2.3" }) =
      false ∧
    ∃ m, (readManifest
        ⟨some { name := some "ext" }, some { version := some "1.2.3" }⟩).1 =
      some m ∧ m.version = "1.2.3" := by
  have h := manifest_version_fallback { name := some "ext" }
    { version := some "1.2.3" } rfl rfl (by decide)
  exact ⟨rfl, rfl, by decide, h.1⟩

/-- C8: `readManifest` never throws — it is a total function — and whenever
the manifest file is missing or unparseable, or neither source supplies a
usable `name`, or neither supplies a usable `version`, it returns null and
emits a diagnostic warning. -/
theorem readManifest_null_and_warns (input : ManifestInput)
    (h : input.manifest = none ∨
      ∃ parsed, input.manifest = some parsed ∧
        (isBlank (mergedName parsed (effPkg input)) = true ∨
         isBlank (mergedVersion parsed (effPkg input)) = true)) :
    (readManifest input).1 = none ∧ (readManifest input).2 ≠ [] := by
  obtain ⟨mf, pj⟩ := input
  rcases h with h | ⟨parsed, hm, hblank⟩
  · rw [show mf = none from h]
    simp [readManifest]
  · rw [show mf = some parsed from hm]
    simp only [effPkg] at hblank
    by_cases hn : isBlank (mergedName parsed (pj.getD {})) = true
    · refine ⟨?_, ?_⟩ <;> simp [readManifest, effPkg, hn]
    · have hb : isBlank (mergedVersion parsed (pj.getD {})) = true := by
        rcases hblank with hb | hb
        · exact absurd hb hn
        · exact hb
      refine ⟨?_, ?_⟩ <;>
        simp [readManifest, effPkg, hn, hb]

/-- Witness for C8: a manifest file that parses but supplies nothing, with no
readable package.json. -/
theorem readManifest_null_and_warns_witness :
    ((⟨some {}, none⟩ : ManifestInput).manifest = none ∨
      ∃ parsed, (⟨some {}, none⟩ : ManifestInput).manifest = some parsed ∧
        (isBlank (mergedName parsed (effPkg ⟨some {}, none⟩)) = true ∨
         isBlank (mergedVersion parsed (effPkg ⟨some {}, none⟩)) = true)) ∧
    (readManifest ⟨some {}, none⟩).1 = none ∧
    (readManifest ⟨some {}, none⟩).2 ≠ [] := by
  have hyp : ((⟨some {}, none⟩ : ManifestInput).manifest = none ∨
      ∃ parsed, (⟨some {}, none⟩ : ManifestInput).manifest = some parsed ∧
        (isBlank (mergedName parsed (effPkg ⟨some {}, none⟩)) = true ∨
         isBlank (mergedVersion parsed (effPkg ⟨some {}, none⟩)) = true)) :=
    Or.inr ⟨{}, rfl, Or.inl rfl⟩
  have h := readManifest_null_and_warns ⟨some {}, none⟩ hyp
  exact ⟨hyp, h.1, h.2⟩
